import Mathlib

/-!
Verification development for the Singularity Launcher repository.

We give a shallow embedding of the container manager (`src/lib/containers.py`)
and of the hardware/platform detection module (`src/lib/system.py`), and prove
the specification's testable properties about these embeddings.

Conventions of the embedding:
* Python strings are Lean `String`s; Python's `in` (substring test),
  `str.startswith`, `str.lower` and slicing are mirrored by the structurally
  recursive helpers below (structural recursion keeps everything
  kernel-evaluable on concrete inputs).
* A `subprocess.run` call is modelled by a `CallOutcome`: either the call
  raises (`FileNotFoundError` etc.) or it returns a `CmdResult` carrying the
  return code and captured stdout/stderr.
* Python's broad `try/except` blocks are mirrored by total functions whose
  exceptional branches take the value the `except` handler produces; the one
  place in the source where an I/O probe is NOT guarded (`detect_platform`'s
  read of `/proc/cpuinfo`) is modelled with `Except`, so a raised exception
  is observable.
-/

/-- Boolean test that `p` is a prefix of `l` (character lists). -/
def listPrefixOf : List Char → List Char → Bool
  | [], _ => true
  | _ :: _, [] => false
  | a :: as, b :: bs => if a = b then listPrefixOf as bs else false

/-- Boolean test that `needle` occurs as a contiguous sublist of `hay`. -/
def listSubOf (needle : List Char) : List Char → Bool
  | [] => needle.isEmpty
  | c :: rest => if listPrefixOf needle (c :: rest) then true else listSubOf needle rest

/-- Python's `needle in hay` on strings (substring containment). -/
def strHasSub (hay needle : String) : Bool :=
  listSubOf needle.data hay.data

/-- Python's `s.startswith(pre)`. -/
def strStartsWith (s pre : String) : Bool :=
  listPrefixOf pre.data s.data

/-- Python's `s.lower()` (ASCII case folding suffices for the probed strings). -/
def strLower (s : String) : String :=
  ⟨s.data.map Char.toLower⟩

/-- Python's `s[1:]`. -/
def strDrop1 (s : String) : String :=
  ⟨s.data.drop 1⟩

/-! ## Container manager (`src/lib/containers.py`) -/

/-- One record of the container snapshot, as built by
`ContainerManager._update_containers` (lines 159-166 of
`src/lib/containers.py`). -/
structure ContainerRecord where
  id : String
  name : String
  status : String
  image : String
  ports : String
  runtime : String
deriving DecidableEq, Repr

/-- One line of the `<engine> ps -a --format json` stdout, after
`result.stdout.strip().split(\x27\n\x27)`:
* `empty` — a falsy line, skipped by `if not line: continue`;
* `malformed` — a line `json.loads` rejects (`JSONDecodeError`), skipped;
* `obj` — a line parsing to a JSON object with string values (the shape
  `docker ps`/`podman ps` emit with the `\x7b\x7bjson .\x7d\x7d` format);
  `fields` is the resulting dict's entries. -/
inductive PsLine where
  | empty
  | malformed (raw : String)
  | obj (fields : List (String × String))
deriving DecidableEq, Repr

/-- Python's `dict.get(k, d)` on the parsed JSON object. -/
def fieldsGet (fields : List (String × String)) (k d : String) : String :=
  match fields with
  | [] => d
  | (k1, v) :: rest => if k1 = k then v else fieldsGet rest k d

/-- Status normalisation of `_update_containers` (lines 144-150): `Up` means
running, `Exited`/`Dead` mean stopped, anything else is unknown. -/
def parseStatus (s : String) : String :=
  if strHasSub s "Up" then "running"
  else if strHasSub s "Exited" then "stopped"
  else if strHasSub s "Dead" then "stopped"
  else "unknown"

/-- Processing of one parsed container JSON object (lines 136-166):
extract id (`ID` else `Id`), name (`Names` else `Name`, leading `/`
stripped), normalised status, ports, image, and tag with the runtime. -/
def processObj (rt : String) (fields : List (String × String)) :
    String × ContainerRecord :=
  let cid := fieldsGet fields "ID" (fieldsGet fields "Id" "")
  let rawName := fieldsGet fields "Names" (fieldsGet fields "Name" "")
  let name := if strStartsWith rawName "/" then strDrop1 rawName else rawName
  let status := parseStatus (fieldsGet fields "Status" "")
  let ports := fieldsGet fields "Ports" ""
  let image := fieldsGet fields "Image" ""
  (cid, ⟨cid, name, status, image, ports, rt⟩)

/-- The in-memory container map: a Python dict keyed by container id,
modelled as an insertion-ordered association list with distinct keys. -/
abbrev ContainerMap := List (String × ContainerRecord)

/-- Key membership in the container map. -/
def containsKey : ContainerMap → String → Bool
  | [], _ => false
  | (k1, _) :: rest, k => if k1 = k then true else containsKey rest k

/-- Python dict assignment `m[k] = v`: replace in place when the key is
present, append otherwise. -/
def dictInsert : ContainerMap → String → ContainerRecord → ContainerMap
  | [], k, v => [(k, v)]
  | (k1, v1) :: rest, k, v =>
      if k1 = k then (k1, v) :: rest else (k1, v1) :: dictInsert rest k v

/-- Result of the `<engine> ps -a --format json` invocation when it returns:
return code plus the stdout split into lines. -/
structure PsResult where
  returncode : Int
  lines : List PsLine
deriving DecidableEq, Repr

/-- Outcome of the `ps` subprocess call: it raises, or returns a result. -/
inductive PsOutcome where
  | raises
  | returns (r : PsResult)
deriving DecidableEq, Repr

/-- One iteration of the parsing loop of `_update_containers` (lines
128-170): empty and malformed lines are skipped (`continue` /
`JSONDecodeError` handler), a parsed object is inserted into the dict. -/
def insertLine (rt : String) (m : ContainerMap) : PsLine → ContainerMap
  | .empty => m
  | .malformed _ => m
  | .obj fields => dictInsert m (processObj rt fields).1 (processObj rt fields).2

/-- The parsing loop of `_update_containers` (lines 127-170): fold over the
stdout lines, building the fresh `new_containers` dict. -/
def buildContainers (rt : String) (lines : List PsLine) : ContainerMap :=
  lines.foldl (insertLine rt) []

/-- `ContainerManager._update_containers` (lines 107-176): no runtime, a
raising call, or a non-zero exit all leave `self.containers` untouched;
otherwise the map is replaced wholesale by the freshly parsed snapshot. -/
def updateContainers (runtime : Option String) (out : PsOutcome)
    (prev : ContainerMap) : ContainerMap :=
  match runtime with
  | none => prev
  | some rt =>
      match out with
      | .raises => prev
      | .returns r =>
          if r.returncode ≠ 0 then prev
          else buildContainers rt r.lines

/-- Whether a `ps` stdout line is a well-formed container JSON line. -/
def isObjLine : PsLine → Bool
  | .obj _ => true
  | _ => false

/-- The number N of well-formed container JSON lines in a `ps` output. -/
def numObjLines : List PsLine → Nat
  | [] => 0
  | .obj _ :: rest => numObjLines rest + 1
  | _ :: rest => numObjLines rest

/-- The container ids carried by the well-formed lines, in order. -/
def objIds (rt : String) : List PsLine → List String
  | [] => []
  | .obj fields :: rest => (processObj rt fields).1 :: objIds rt rest
  | _ :: rest => objIds rt rest

/-- Result of a generic engine CLI invocation. -/
structure CmdResult where
  returncode : Int
  stdout : String
  stderr : String
deriving DecidableEq, Repr

/-- Outcome of a generic engine CLI invocation: raises, or returns. -/
inductive CallOutcome where
  | raises (msg : String)
  | returns (r : CmdResult)
deriving DecidableEq, Repr

/-- `ContainerManager.start_container` (lines 199-231). The result is
`(success, repolls, containers)`: the returned boolean, how many times
`_update_containers` was invoked before returning, and the container map
after the call (`repoll` is the `ps` outcome that re-poll would see,
`prev` the map before the call). The `try/except` makes the Python total,
mirrored by the `raises` branch. -/
def startContainerRun (runtime : Option String) (_cid : String)
    (outcome : CallOutcome) (repoll : PsOutcome) (prev : ContainerMap) :
    Bool × Nat × ContainerMap :=
  match runtime with
  | none => (false, 0, prev)
  | some rt =>
      match outcome with
      | .raises _ => (false, 0, prev)
      | .returns r =>
          if r.returncode ≠ 0 then (false, 0, prev)
          else (true, 1, updateContainers (some rt) repoll prev)

/-- `ContainerManager.stop_container` (lines 233-265); same shape as
`start_container` with the `stop` verb. -/
def stopContainerRun (runtime : Option String) (_cid : String)
    (outcome : CallOutcome) (repoll : PsOutcome) (prev : ContainerMap) :
    Bool × Nat × ContainerMap :=
  match runtime with
  | none => (false, 0, prev)
  | some rt =>
      match outcome with
      | .raises _ => (false, 0, prev)
      | .returns r =>
          if r.returncode ≠ 0 then (false, 0, prev)
          else (true, 1, updateContainers (some rt) repoll prev)

/-- `ContainerManager.restart_container` (lines 267-299); same shape as
`start_container` with the `restart` verb. -/
def restartContainerRun (runtime : Option String) (_cid : String)
    (outcome : CallOutcome) (repoll : PsOutcome) (prev : ContainerMap) :
    Bool × Nat × ContainerMap :=
  match runtime with
  | none => (false, 0, prev)
  | some rt =>
      match outcome with
      | .raises _ => (false, 0, prev)
      | .returns r =>
          if r.returncode ≠ 0 then (false, 0, prev)
          else (true, 1, updateContainers (some rt) repoll prev)

/-- Command-line built by `ContainerManager.run_compose` (lines 354-373):
`docker-compose` or `podman-compose`, then `-f <file>`, then `-p <project>`
when a truthy project name was given (Python `if project_name:` — `None`
and the empty string are falsy), then `up` or `down`, and `-d` appended
after `up`. -/
def composeCmd (runtime file : String) (project : Option String)
    (up : Bool) : List String :=
  let base := if runtime = "docker" then ["docker-compose"] else ["podman-compose"]
  let cmd1 := base ++ ["-f", file]
  let cmd2 :=
    match project with
    | some p => if p = "" then cmd1 else cmd1 ++ ["-p", p]
    | none => cmd1
  let cmd3 := cmd2 ++ [if up then "up" else "down"]
  if up then cmd3 ++ ["-d"] else cmd3

/-- `ContainerManager.run_compose` (lines 334-433), in the `log_file = None`
configuration the launcher's claim quantifies over: no runtime reports
failure with a fixed message; a raising call reports failure with the
exception text; a non-zero exit returns `(False, stderr)`; success returns
`(True, stdout)`. -/
def runCompose (runtime : Option String) (_file : String)
    (_project : Option String) (_up : Bool) (outcome : CallOutcome) :
    Bool × String :=
  match runtime with
  | none => (false, "No container runtime available")
  | some _ =>
      match outcome with
      | .raises msg => (false, msg)
      | .returns r =>
          if r.returncode ≠ 0 then (false, r.stderr) else (true, r.stdout)

/-! ## Hardware/platform detection (`src/lib/system.py`) -/

/-- The probed environment a detection run sees. Each `Option` field models a
guarded probe: `none` means the probe raised (missing file, missing binary,
permission error, unparsable output), `some` carries its result. Memory
probes are summarised by the rounded GB value the Python arithmetic yields. -/
structure DetectEnv where
  system : String
  machine : String
  processor : String
  hwAvail : Bool
  gpuDetectAvail : Bool
  osRelease : Option String
  procCpuinfoExists : Bool
  procCpuinfo : Option String
  etcDgxExists : Bool
  etcNvTegraExists : Bool
  devTreeModelExists : Bool
  devTreeModel : Option String
  cpuinfoVendor : Option String
  gputilHasGpus : Option Bool
  nvidiaSmiRc : Option Int
  rocmExists : Bool
  rocminfoRc : Option Int
  lspciOut : Option String
  wmicVideoOut : Option String
  sysctlBrand : Option String
  perfCores : Option Int
  effCores : Option Int
  psutilMemGB : Option Int
  meminfoGB : Option Int
  wmicMemGB : Option Int
  sysctlMemGB : Option Int
deriving DecidableEq, Repr

/-- `detect_os` (lines 48-79): distribution sniffing of `/etc/os-release`
on Linux, with the bare `except` falling back to `"Linux"`. -/
def detect_os (e : DetectEnv) : String :=
  if e.system = "Linux" then
    match e.osRelease with
    | none => "Linux"
    | some osr =>
        if strHasSub osr "Arch Linux" then "Arch"
        else if strHasSub osr "Pop!_OS" then "PopOS"
        else if strHasSub osr "Debian" then "Debian"
        else if strHasSub osr "Ubuntu" then "Ubuntu"
        else if strHasSub osr "Fedora" then "Fedora"
        else "Linux"
  else if e.system = "Darwin" then "Mac"
  else if e.system = "Windows" then "Windows"
  else "Other"

/-- Classification of an Apple Silicon brand string by the probed core
counts (lines 114-162); `p` and `q` are the performance/efficiency core
counts after their guarded probes (0 on probe failure). -/
def appleVariantOfBrand (brand : String) (p q : Int) : String :=
  if strHasSub brand "M4" then
    if p ≥ 14 ∧ q ≥ 20 then "M4_MAX"
    else if p ≥ 12 ∧ q ≥ 16 then "M4_PRO"
    else if p ≥ 4 ∧ q ≥ 6 then "M4_BASE"
    else "M4_UNKNOWN"
  else if strHasSub brand "M3" then
    if p ≥ 12 ∧ q ≥ 16 then "M3_MAX"
    else if p ≥ 8 ∧ q ≥ 4 then "M3_PRO"
    else if p ≥ 4 ∧ q ≥ 4 then "M3_BASE"
    else "M3_UNKNOWN"
  else if strHasSub brand "M2" then
    if p ≥ 8 ∧ q ≥ 16 then "M2_ULTRA"
    else if p ≥ 8 ∧ q ≥ 8 then "M2_MAX"
    else if p ≥ 6 ∧ q ≥ 4 then "M2_PRO"
    else if p ≥ 4 ∧ q ≥ 4 then "M2_BASE"
    else "M2_UNKNOWN"
  else if strHasSub brand "M1" then
    if p ≥ 8 ∧ q ≥ 16 then "M1_ULTRA"
    else if p ≥ 8 ∧ q ≥ 8 then "M1_MAX"
    else if p ≥ 6 ∧ q ≥ 2 then "M1_PRO"
    else if p ≥ 4 ∧ q ≥ 4 then "M1_BASE"
    else "M1_UNKNOWN"
  else "UNKNOWN"

/-- `detect_apple_silicon_variant` (lines 81-166): brand string plus
performance/efficiency core counts; each core-count probe falls back to 0,
any failure of the brand probe yields `UNKNOWN` via the outer `except`. -/
def detect_apple_silicon_variant (e : DetectEnv) : String :=
  if e.system ≠ "Darwin" ∨ strLower e.machine ≠ "arm64" then "UNKNOWN"
  else
    match e.sysctlBrand with
    | none => "UNKNOWN"
    | some brand => appleVariantOfBrand brand (e.perfCores.getD 0) (e.effCores.getD 0)

/-- Python's `platform.machine().lower() in ["aarch64", "armv7l", "arm64"]`
(the `IS_ARM` constant of line 41 and the membership tests of lines 380
and 519). -/
def isArmMachine (m : String) : Bool :=
  if strLower m = "aarch64" then true
  else if strLower m = "armv7l" then true
  else if strLower m = "arm64" then true
  else false

/-- The repeated `if "amd" in s: ... elif "intel" in s: ...` vendor probe of
`detect_cpu_type` (lines 388-391, 400-403, 409-412); `none` means the probe
decided nothing and control falls through. -/
def vendorClass (s : String) : Option String :=
  if strHasSub s "amd" then some "amd"
  else if strHasSub s "intel" then some "intel"
  else none

/-- The cpuinfo-library probe of `detect_cpu_type` (lines 384-393). -/
def cpuViaLib (e : DetectEnv) : Option String :=
  if e.hwAvail then
    match e.cpuinfoVendor with
    | some raw => vendorClass (strLower raw)
    | none => none
  else none

/-- The OS-specific probe of `detect_cpu_type` (lines 396-414):
`/proc/cpuinfo` on Linux, `platform.processor()` on Windows. -/
def cpuViaOs (e : DetectEnv) : Option String :=
  if e.system = "Linux" then
    match e.procCpuinfo with
    | some content => vendorClass (strLower content)
    | none => none
  else if e.system = "Windows" then vendorClass (strLower e.processor)
  else none

/-- `detect_cpu_type` (lines 365-420): Apple Silicon, then generic ARM, then
the cpuinfo library, then `/proc/cpuinfo` (Linux) or `platform.processor()`
(Windows), then the `x86_64` default, else `unknown`. -/
def detect_cpu_type (e : DetectEnv) : String :=
  if e.system = "Darwin" ∧ strLower e.machine = "arm64" then "apple"
  else if isArmMachine e.machine then "arm"
  else
    match cpuViaLib e with
    | some r => r
    | none =>
        match cpuViaOs e with
        | some r => r
        | none => if strLower e.machine = "x86_64" then "intel" else "unknown"

/-- The GPUtil probe of `detect_gpu_type` (lines 436-442): only consulted
when the library imported and the machine is not ARM; a nonempty GPU list
means nvidia, an empty list or a raise falls through. -/
def gpuViaGputil (e : DetectEnv) : Option String :=
  if e.gpuDetectAvail ∧ ¬ isArmMachine e.machine then
    match e.gputilHasGpus with
    | some true => some "nvidia"
    | _ => none
  else none

/-- The `nvidia-smi` probe of `detect_gpu_type` (lines 445-450). -/
def gpuViaSmi (e : DetectEnv) : Option String :=
  match e.nvidiaSmiRc with
  | some 0 => some "nvidia"
  | _ => none

/-- The AMD probes of `detect_gpu_type` (lines 453-475): ROCm presence or
`rocminfo` then `lspci` on Linux, `wmic` on Windows. -/
def gpuViaAmd (e : DetectEnv) : Option String :=
  if e.system = "Linux" then
    if e.rocmExists then some "amd"
    else
      match e.rocminfoRc with
      | some 0 => some "amd"
      | _ =>
          match e.lspciOut with
          | some out =>
              if strHasSub (strLower out) "amd" ∧ strHasSub (strLower out) "vga" then
                some "amd"
              else none
          | none => none
  else if e.system = "Windows" then
    match e.wmicVideoOut with
    | some out =>
        if strHasSub (strLower out) "amd" ∨ strHasSub (strLower out) "radeon" then
          some "amd"
        else none
    | none => none
  else none

/-- `detect_gpu_type` (lines 422-478): Apple Silicon, GPUtil, `nvidia-smi`,
ROCm or `lspci` (Linux), `wmic` (Windows), defaulting to `cpu`. -/
def detect_gpu_type (e : DetectEnv) : String :=
  if e.system = "Darwin" ∧ strLower e.machine = "arm64" then "apple"
  else
    match gpuViaGputil e with
    | some r => r
    | none =>
        match gpuViaSmi e with
        | some r => r
        | none =>
            match gpuViaAmd e with
            | some r => r
            | none => "cpu"

/-- `get_system_memory` (lines 577-623): psutil first, then the OS-specific
probe, defaulting to 8 GB. -/
def get_system_memory (e : DetectEnv) : Int :=
  match (if e.hwAvail then e.psutilMemGB else none) with
  | some g => g
  | none =>
      if e.system = "Linux" then
        match e.meminfoGB with
        | some g => g
        | none => 8
      else if e.system = "Windows" then
        match e.wmicMemGB with
        | some g => g
        | none => 8
      else if e.system = "Darwin" then
        match e.sysctlMemGB with
        | some g => g
        | none => 8
      else 8

/-- `detect_jetson_model` (lines 524-575): requires `/etc/nv_tegra_release`;
reads `/proc/device-tree/model` (guarded, failure falls through to
`unknown`), classifies Orin variants by system memory. -/
def detect_jetson_model (e : DetectEnv) : String :=
  if ¬ e.etcNvTegraExists then "unknown"
  else if e.devTreeModelExists then
    match e.devTreeModel with
    | none => "unknown"
    | some raw =>
        if strHasSub (strLower raw) "orin" ∧ strHasSub (strLower raw) "nano" then
          if get_system_memory e ≤ 4 then "orin_nano_4gb" else "orin_nano_8gb"
        else if strHasSub (strLower raw) "orin" ∧ strHasSub (strLower raw) "nx" then
          if get_system_memory e ≤ 8 then "orin_nx_8gb" else "orin_nx_16gb"
        else if strHasSub (strLower raw) "orin" ∧ strHasSub (strLower raw) "agx" then
          if get_system_memory e ≤ 32 then "agx_32gb" else "agx_64gb"
        else "unknown_jetson"
  else "unknown"

/-- The fall-through tail of `detect_platform` (lines 495-522), reached once
the DGX check has completed without returning or raising: Jetson, Apple
Silicon, GPU vendor, CPU vendor, then the machine-architecture default. -/
def detect_platform_rest (e : DetectEnv) : String :=
  if e.etcNvTegraExists then "jetson"
  else if e.system = "Darwin" ∧ strLower e.machine = "arm64" then "apple"
  else if detect_gpu_type e = "nvidia" then "nvidia"
  else if detect_gpu_type e = "amd" then "amd"
  else if detect_cpu_type e = "amd" ∨ detect_cpu_type e = "intel"
      ∨ detect_cpu_type e = "arm" then detect_cpu_type e
  else if strLower e.machine = "x86_64" then "intel"
  else if isArmMachine e.machine then "arm"
  else "unknown"

/-- `detect_platform` (lines 480-522). The DGX check at line 491 evaluates
`os.path.exists("/etc/dgx-release") or (os.path.exists("/proc/cpuinfo") and
"NVIDIA DGX" in open("/proc/cpuinfo").read())` with NO surrounding
`try/except`: when `/proc/cpuinfo` exists but opening or reading it raises,
the exception propagates out of `detect_platform`, modelled by
`Except.error`. -/
def detect_platform (e : DetectEnv) : Except Unit String :=
  if e.etcDgxExists then Except.ok "dgx"
  else if e.procCpuinfoExists then
    match e.procCpuinfo with
    | none => Except.error ()
    | some content =>
        if strHasSub content "NVIDIA DGX" then Except.ok "dgx"
        else Except.ok (detect_platform_rest e)
  else Except.ok (detect_platform_rest e)

/-! ## Poller state machine (`ContainerManager.start`/`stop`) -/

/-- Abstract manager state for the polling state machine: the `self.running`
flag and the number of live polling threads (spawned and not yet exited). -/
structure MgrState where
  running : Bool
  liveThreads : Nat
deriving DecidableEq, Repr

/-- `ContainerManager.start` (lines 70-78): an early return when already
running, otherwise set the flag and spawn the polling thread. -/
def mgrStart (s : MgrState) : MgrState :=
  if s.running then s else ⟨true, s.liveThreads + 1⟩

/-- `ContainerManager.stop` (lines 80-86): clear the flag and join the
polling thread; the loop of `_update_loop` (line 90) checks `self.running`
each iteration, so in this synchronous model the joined thread has observed
`running = false` and exited, and the handle is cleared. -/
def mgrStop (_s : MgrState) : MgrState := ⟨false, 0⟩

/-- States reachable from the freshly constructed manager (`__init__`,
lines 58-68: not running, no thread) by any sequence of `start`/`stop`. -/
inductive MgrReachable : MgrState → Prop where
  | init : MgrReachable ⟨false, 0⟩
  | start {s : MgrState} : MgrReachable s → MgrReachable (mgrStart s)
  | stop {s : MgrState} : MgrReachable s → MgrReachable (mgrStop s)

/-! ## Enumerations, record predicates and concrete test data -/

/-- The values `detect_os` can return. -/
def osEnum : List String :=
  ["Arch", "PopOS", "Debian", "Ubuntu", "Fedora", "Linux", "Mac", "Windows", "Other"]

/-- The values `detect_cpu_type` can return. -/
def cpuEnum : List String := ["apple", "arm", "amd", "intel", "unknown"]

/-- The values `detect_gpu_type` can return. -/
def gpuEnum : List String := ["apple", "nvidia", "amd", "cpu"]

/-- The values `detect_apple_silicon_variant` can return. -/
def appleEnum : List String :=
  ["M1_BASE", "M1_PRO", "M1_MAX", "M1_ULTRA", "M1_UNKNOWN",
   "M2_BASE", "M2_PRO", "M2_MAX", "M2_ULTRA", "M2_UNKNOWN",
   "M3_BASE", "M3_PRO", "M3_MAX", "M3_UNKNOWN",
   "M4_BASE", "M4_PRO", "M4_MAX", "M4_UNKNOWN", "UNKNOWN"]

/-- The values `detect_jetson_model` can return. -/
def jetsonEnum : List String :=
  ["orin_nano_4gb", "orin_nano_8gb", "orin_nx_8gb", "orin_nx_16gb",
   "agx_32gb", "agx_64gb", "unknown_jetson", "unknown"]

/-- The status invariant of a container record: `running`, `stopped` or
`unknown`. -/
def statusOk (r : ContainerRecord) : Prop :=
  r.status = "running" ∨ r.status = "stopped" ∨ r.status = "unknown"

/-- A `ps` output with two well-formed lines sharing one container ID plus
one malformed line: the dict keyed by ID collapses the duplicates. -/
def c1DupLines : List PsLine :=
  [PsLine.obj [("ID", "abc123"), ("Names", "web"), ("Status", "Up 5 minutes"),
               ("Image", "nginx"), ("Ports", "")],
   PsLine.obj [("ID", "abc123"), ("Names", "db"), ("Status", "Exited (0) 2 hours ago"),
               ("Image", "postgres"), ("Ports", "")],
   PsLine.malformed "this is not json"]

/-- A `ps` output with two well-formed lines with distinct IDs, one
malformed line and one empty line. -/
def c1GoodLines : List PsLine :=
  [PsLine.obj [("ID", "aa1"), ("Names", "/web"), ("Status", "Up 2 hours"),
               ("Image", "nginx"), ("Ports", "80/tcp")],
   PsLine.malformed "oops not json",
   PsLine.obj [("ID", "bb2"), ("Names", "db"), ("Status", "Exited (1) 3 days ago"),
               ("Image", "postgres"), ("Ports", "")],
   PsLine.empty]

/-- A `ps` output reporting one container that is up and one that exited. -/
def c4Lines : List PsLine :=
  [PsLine.obj [("ID", "c1"), ("Names", "alpha"), ("Status", "Up 3 hours"),
               ("Image", "img1"), ("Ports", "")],
   PsLine.obj [("ID", "c2"), ("Names", "beta"), ("Status", "Exited (0) 10 minutes ago"),
               ("Image", "img2"), ("Ports", "")]]

/-- A probe environment on Linux where `/proc/cpuinfo` exists but opening or
reading it raises (for example: permission denied); all other probes fail or
are absent. -/
def envCpuinfoUnreadable : DetectEnv :=
  { system := "Linux", machine := "x86_64", processor := "", hwAvail := false,
    gpuDetectAvail := false, osRelease := none, procCpuinfoExists := true,
    procCpuinfo := none, etcDgxExists := false, etcNvTegraExists := false,
    devTreeModelExists := false, devTreeModel := none, cpuinfoVendor := none,
    gputilHasGpus := none, nvidiaSmiRc := none, rocmExists := false,
    rocminfoRc := none, lspciOut := none, wmicVideoOut := none,
    sysctlBrand := none, perfCores := none, effCores := none,
    psutilMemGB := none, meminfoGB := none, wmicMemGB := none,
    sysctlMemGB := none }

/-! ## Helper lemmas -/

theorem length_dictInsert (m : ContainerMap) (k : String) (v : ContainerRecord)
    (h : containsKey m k = false) : (dictInsert m k v).length = m.length + 1 := by
  induction m with
  | nil => simp [dictInsert]
  | cons p rest ih =>
      obtain ⟨k1, v1⟩ := p
      unfold containsKey at h
      unfold dictInsert
      split
      · simp_all
      · rename_i hne
        rw [if_neg hne] at h
        simp only [List.length_cons]
        rw [ih h]

theorem containsKey_dictInsert_ne (m : ContainerMap) (k k1 : String)
    (v : ContainerRecord) (hne : k1 ≠ k) :
    containsKey (dictInsert m k v) k1 = containsKey m k1 := by
  have hne1 : (k = k1) = False := by
    simp only [eq_iff_iff, iff_false]
    exact fun hh => hne hh.symm
  induction m with
  | nil => simp [dictInsert, containsKey, hne1]
  | cons p rest ih =>
      obtain ⟨k2, v2⟩ := p
      unfold dictInsert
      split
      · unfold containsKey; simp
      · unfold containsKey
        split <;> simp_all

theorem mem_dictInsert (m : ContainerMap) (k : String) (v : ContainerRecord)
    (p : String × ContainerRecord) (h : p ∈ dictInsert m k v) :
    p.2 = v ∨ p ∈ m := by
  induction m with
  | nil => simp_all [dictInsert]
  | cons q rest ih =>
      obtain ⟨k2, v2⟩ := q
      unfold dictInsert at h
      split at h
      · rcases List.mem_cons.mp h with h1 | h1
        · left; rw [h1]
        · right; exact List.mem_cons_of_mem _ h1
      · rcases List.mem_cons.mp h with h1 | h1
        · right; rw [h1]; exact List.mem_cons_self _ _
        · rcases ih h1 with h2 | h2
          · left; exact h2
          · right; exact List.mem_cons_of_mem _ h2

theorem foldl_insertLine_length (rt : String) :
    ∀ (lines : List PsLine) (m : ContainerMap),
      (∀ i ∈ objIds rt lines, containsKey m i = false) →
      (objIds rt lines).Nodup →
      (lines.foldl (insertLine rt) m).length = m.length + numObjLines lines := by
  intro lines
  induction lines with
  | nil => intro m _ _; simp [numObjLines]
  | cons l rest ih =>
      intro m hfresh hnd
      cases l with
      | empty =>
          simp only [List.foldl_cons, insertLine, numObjLines]
          exact ih m (by simpa [objIds] using hfresh) (by simpa [objIds] using hnd)
      | malformed raw =>
          simp only [List.foldl_cons, insertLine, numObjLines]
          exact ih m (by simpa [objIds] using hfresh) (by simpa [objIds] using hnd)
      | obj fields =>
          simp only [List.foldl_cons, insertLine, numObjLines]
          have hid : containsKey m (processObj rt fields).1 = false :=
            hfresh _ (by simp [objIds])
          have hnd1 : (objIds rt rest).Nodup :=
            (List.nodup_cons.mp (by simpa [objIds] using hnd)).2
          have hnotin : (processObj rt fields).1 ∉ objIds rt rest :=
            (List.nodup_cons.mp (by simpa [objIds] using hnd)).1
          have hfresh1 : ∀ i ∈ objIds rt rest,
              containsKey
                (dictInsert m (processObj rt fields).1 (processObj rt fields).2) i
                = false := by
            intro i hi
            rw [containsKey_dictInsert_ne]
            · exact hfresh i (by simp [objIds, hi])
            · intro heq; exact hnotin (heq ▸ hi)
          rw [ih _ hfresh1 hnd1, length_dictInsert m _ _ hid]
          omega

theorem parseStatus_ok (s : String) :
    parseStatus s = "running" ∨ parseStatus s = "stopped" ∨ parseStatus s = "unknown" := by
  unfold parseStatus
  split_ifs <;> simp

theorem foldl_insertLine_statusOk (rt : String) :
    ∀ (lines : List PsLine) (m : ContainerMap),
      (∀ p ∈ m, statusOk p.2) →
      ∀ p ∈ lines.foldl (insertLine rt) m, statusOk p.2 := by
  intro lines
  induction lines with
  | nil => intro m hm p hp; exact hm p hp
  | cons l rest ih =>
      intro m hm p hp
      cases l with
      | empty => exact ih m hm p hp
      | malformed raw => exact ih m hm p hp
      | obj fields =>
          refine ih _ ?_ p hp
          intro q hq
          rcases mem_dictInsert _ _ _ _ hq with h1 | h1
          · rw [h1]
            exact parseStatus_ok _
          · exact hm q h1

theorem detect_os_mem (e : DetectEnv) : detect_os e ∈ osEnum := by
  unfold detect_os
  repeat' split
  all_goals decide

theorem vendorClass_some (s r : String) (h : vendorClass s = some r) :
    r = "amd" ∨ r = "intel" := by
  unfold vendorClass at h
  split at h
  · simp_all
  · split at h <;> simp_all

theorem cpuViaLib_some (e : DetectEnv) (r : String) (h : cpuViaLib e = some r) :
    r = "amd" ∨ r = "intel" := by
  unfold cpuViaLib at h
  split at h
  · split at h
    · exact vendorClass_some _ _ h
    · simp_all
  · simp_all

theorem cpuViaOs_some (e : DetectEnv) (r : String) (h : cpuViaOs e = some r) :
    r = "amd" ∨ r = "intel" := by
  unfold cpuViaOs at h
  split at h
  · split at h
    · exact vendorClass_some _ _ h
    · simp_all
  · split at h
    · exact vendorClass_some _ _ h
    · simp_all

theorem detect_cpu_type_mem (e : DetectEnv) : detect_cpu_type e ∈ cpuEnum := by
  unfold detect_cpu_type
  split
  · decide
  · split
    · decide
    · split
      · rcases cpuViaLib_some e _ (by assumption) with h | h <;> simp [h, cpuEnum]
      · split
        · rcases cpuViaOs_some e _ (by assumption) with h | h <;> simp [h, cpuEnum]
        · split <;> decide

theorem gpuViaGputil_some (e : DetectEnv) (r : String) (h : gpuViaGputil e = some r) :
    r = "nvidia" := by
  unfold gpuViaGputil at h
  split at h <;> [skip; simp_all]
  split at h <;> simp_all

theorem gpuViaSmi_some (e : DetectEnv) (r : String) (h : gpuViaSmi e = some r) :
    r = "nvidia" := by
  unfold gpuViaSmi at h
  split at h <;> simp_all

theorem gpuViaAmd_some (e : DetectEnv) (r : String) (h : gpuViaAmd e = some r) :
    r = "amd" := by
  unfold gpuViaAmd at h
  split at h
  · split at h
    · simp_all
    · split at h
      · simp_all
      · split at h
        · split at h <;> simp_all
        · simp_all
  · split at h
    · split at h
      · split at h <;> simp_all
      · simp_all
    · simp_all

theorem detect_gpu_type_mem (e : DetectEnv) : detect_gpu_type e ∈ gpuEnum := by
  unfold detect_gpu_type
  split
  · decide
  · split
    · rename_i r h; simp [gpuViaGputil_some e r h, gpuEnum]
    · split
      · rename_i r h; simp [gpuViaSmi_some e r h, gpuEnum]
      · split
        · rename_i r h; simp [gpuViaAmd_some e r h, gpuEnum]
        · decide

theorem detect_apple_silicon_variant_mem (e : DetectEnv) :
    detect_apple_silicon_variant e ∈ appleEnum := by
  unfold detect_apple_silicon_variant appleVariantOfBrand
  repeat' split
  all_goals decide

theorem detect_jetson_model_mem (e : DetectEnv) :
    detect_jetson_model e ∈ jetsonEnum := by
  unfold detect_jetson_model
  repeat' split
  all_goals decide

theorem mgrReachable_inv {s : MgrState} (h : MgrReachable s) :
    s.liveThreads = if s.running then 1 else 0 := by
  induction h with
  | init => rfl
  | start h ih =>
      rename_i s1
      unfold mgrStart
      by_cases hr : s1.running
      · simpa [hr] using ih
      · simp only [hr, if_false] at ih
        simp [hr, ih]
  | stop h ih => rfl

/-! ## Claim theorems -/

/-- C1, counterexample: a `ps` output with N = 2 well-formed container JSON
lines that share one container ID (and M = 1 malformed line) yields a
snapshot with 1 record, not N = 2: the snapshot dict is keyed by container
ID, so duplicate IDs collapse. -/
theorem c1_dup_ids_counterexample :
    (updateContainers (some "docker") (PsOutcome.returns ⟨0, c1DupLines⟩) []).length
      ≠ numObjLines c1DupLines := by decide

/-- C1, amended: for every `ps` output whose well-formed container JSON
lines carry pairwise distinct container IDs, one polling update on a
zero exit produces a snapshot with exactly N records, where N is the number
of well-formed lines: each malformed or empty line is skipped and parsing
continues with the remaining lines. -/
theorem c1_distinct_ids_snapshot_size (rt : String) (r : PsResult)
    (prev : ContainerMap) (hrc : r.returncode = 0)
    (hnd : (objIds rt r.lines).Nodup) :
    (updateContainers (some rt) (PsOutcome.returns r) prev).length
      = numObjLines r.lines := by
  simp only [updateContainers, hrc]
  rw [if_neg (by simp)]
  unfold buildContainers
  have h := foldl_insertLine_length rt r.lines [] (fun i _ => rfl) hnd
  simpa using h

/-- C1, witness: two well-formed lines with distinct IDs, one malformed
line and one empty line give a snapshot of exactly 2 records. -/
theorem c1_witness :
    (updateContainers (some "podman") (PsOutcome.returns ⟨0, c1GoodLines⟩) []).length
      = numObjLines c1GoodLines :=
  c1_distinct_ids_snapshot_size "podman" ⟨0, c1GoodLines⟩ [] rfl (by decide)

/-- C2: whenever the `ps -a` invocation exits non-zero, the polling update
returns before touching the map, keeping the previous snapshot with no
partial merge. -/
theorem c2_nonzero_exit_keeps_snapshot (rt : String) (r : PsResult)
    (prev : ContainerMap) (h : r.returncode ≠ 0) :
    updateContainers (some rt) (PsOutcome.returns r) prev = prev := by
  simp [updateContainers, h]

/-- C2, witness: a non-zero exit (code 125) keeps a concrete one-record
previous snapshot unchanged. -/
theorem c2_witness :
    updateContainers (some "docker") (PsOutcome.returns ⟨125, []⟩)
        [("x", ⟨"x", "n", "running", "i", "", "docker"⟩)]
      = [("x", ⟨"x", "n", "running", "i", "", "docker"⟩)] :=
  c2_nonzero_exit_keeps_snapshot "docker" ⟨125, []⟩
    [("x", ⟨"x", "n", "running", "i", "", "docker"⟩)] (by decide)

/-- C3: evaluating the source's `detect_platform` in a probe environment
where `/proc/cpuinfo` exists but reading it raises (line 491 has no
`try/except` around `open("/proc/cpuinfo").read()`) propagates the
exception instead of returning a classification — while every other
detection function is total and always lands in its fixed enumeration. -/
theorem c3_detect_platform_raises :
    detect_platform envCpuinfoUnreadable = Except.error () ∧
    ∀ e : DetectEnv,
      detect_os e ∈ osEnum ∧ detect_cpu_type e ∈ cpuEnum ∧
      detect_gpu_type e ∈ gpuEnum ∧
      detect_apple_silicon_variant e ∈ appleEnum ∧
      detect_jetson_model e ∈ jetsonEnum := by
  refine ⟨rfl, fun e => ?_⟩
  exact ⟨detect_os_mem e, detect_cpu_type_mem e, detect_gpu_type_mem e,
    detect_apple_silicon_variant_mem e, detect_jetson_model_mem e⟩

/-- C4: one polling cycle over an output reporting one `Up` container and
one `Exited` container produces records with statuses `running` and
`stopped`; and in general every record of a freshly built snapshot has
status `running`, `stopped` or `unknown`. -/
theorem c4_status_mapping :
    updateContainers (some "docker") (PsOutcome.returns ⟨0, c4Lines⟩) []
      = [("c1", ⟨"c1", "alpha", "running", "img1", "", "docker"⟩),
         ("c2", ⟨"c2", "beta", "stopped", "img2", "", "docker"⟩)] ∧
    ∀ (rt : String) (r : PsResult) (prev : ContainerMap)
      (p : String × ContainerRecord),
      r.returncode = 0 →
      p ∈ updateContainers (some rt) (PsOutcome.returns r) prev →
      statusOk p.2 := by
  constructor
  · decide
  · intro rt r prev p hrc hp
    simp only [updateContainers, hrc] at hp
    rw [if_neg (by simp)] at hp
    exact foldl_insertLine_statusOk rt r.lines [] (by simp) p hp

/-- C4, witness: the `running` record of the concrete two-container cycle
satisfies the status invariant. -/
theorem c4_witness :
    statusOk (⟨"c1", "alpha", "running", "img1", "", "docker"⟩ : ContainerRecord) :=
  c4_status_mapping.2 "docker" ⟨0, c4Lines⟩ []
    ("c1", ⟨"c1", "alpha", "running", "img1", "", "docker"⟩) rfl (by decide)

/-- C5: start/stop/restart return `False` without raising whenever the
operation cannot succeed — no container runtime, engine CLI exiting
non-zero (e.g. unknown container ID), or the invocation itself raising. -/
theorem c5_failure_returns_false (cid : String) (outcome : CallOutcome)
    (repoll : PsOutcome) (prev : ContainerMap) (rt msg : String)
    (r : CmdResult) (hrc : r.returncode ≠ 0) :
    (startContainerRun none cid outcome repoll prev).1 = false ∧
    (stopContainerRun none cid outcome repoll prev).1 = false ∧
    (restartContainerRun none cid outcome repoll prev).1 = false ∧
    (startContainerRun (some rt) cid (CallOutcome.returns r) repoll prev).1 = false ∧
    (stopContainerRun (some rt) cid (CallOutcome.returns r) repoll prev).1 = false ∧
    (restartContainerRun (some rt) cid (CallOutcome.returns r) repoll prev).1 = false ∧
    (startContainerRun (some rt) cid (CallOutcome.raises msg) repoll prev).1 = false ∧
    (stopContainerRun (some rt) cid (CallOutcome.raises msg) repoll prev).1 = false ∧
    (restartContainerRun (some rt) cid (CallOutcome.raises msg) repoll prev).1 = false := by
  simp [startContainerRun, stopContainerRun, restartContainerRun, hrc]

/-- C5, witness: a non-existent container ID (engine exits 1) and a raising
invocation both yield `False` at concrete inputs. -/
theorem c5_witness :
    (startContainerRun none "deadbeef" (CallOutcome.raises "FileNotFoundError")
        (PsOutcome.returns ⟨0, []⟩) []).1 = false ∧
    (stopContainerRun none "deadbeef" (CallOutcome.raises "FileNotFoundError")
        (PsOutcome.returns ⟨0, []⟩) []).1 = false ∧
    (restartContainerRun none "deadbeef" (CallOutcome.raises "FileNotFoundError")
        (PsOutcome.returns ⟨0, []⟩) []).1 = false ∧
    (startContainerRun (some "docker") "deadbeef"
        (CallOutcome.returns ⟨1, "", "Error: No such container"⟩)
        (PsOutcome.returns ⟨0, []⟩) []).1 = false ∧
    (stopContainerRun (some "docker") "deadbeef"
        (CallOutcome.returns ⟨1, "", "Error: No such container"⟩)
        (PsOutcome.returns ⟨0, []⟩) []).1 = false ∧
    (restartContainerRun (some "docker") "deadbeef"
        (CallOutcome.returns ⟨1, "", "Error: No such container"⟩)
        (PsOutcome.returns ⟨0, []⟩) []).1 = false ∧
    (startContainerRun (some "docker") "deadbeef" (CallOutcome.raises "boom")
        (PsOutcome.returns ⟨0, []⟩) []).1 = false ∧
    (stopContainerRun (some "docker") "deadbeef" (CallOutcome.raises "boom")
        (PsOutcome.returns ⟨0, []⟩) []).1 = false ∧
    (restartContainerRun (some "docker") "deadbeef" (CallOutcome.raises "boom")
        (PsOutcome.returns ⟨0, []⟩) []).1 = false :=
  c5_failure_returns_false "deadbeef"
    (CallOutcome.raises "FileNotFoundError") (PsOutcome.returns ⟨0, []⟩) []
    "docker" "boom" ⟨1, "", "Error: No such container"⟩ (by decide)

/-- C6, counterexample: a failing `start_container` call (engine exit 125)
performs zero re-polls before returning, so the manager does not re-poll
after EVERY mutating call. -/
theorem c6_failed_call_no_repoll :
    (startContainerRun (some "docker") "nosuch"
        (CallOutcome.returns ⟨125, "", "Error: no such container"⟩)
        (PsOutcome.returns ⟨0, []⟩) []).2.1 ≠ 1 := by decide

/-- C6, amended: after every successful mutating call (engine CLI exit 0)
the manager re-polls the container list exactly once before the call
returns; a failed call (no runtime, non-zero exit, or a raising
invocation) performs no re-poll. -/
theorem c6_repoll_iff_success (runtime : Option String) (cid : String)
    (outcome : CallOutcome) (repoll : PsOutcome) (prev : ContainerMap) :
    ((startContainerRun runtime cid outcome repoll prev).1 = true →
        (startContainerRun runtime cid outcome repoll prev).2.1 = 1) ∧
    ((startContainerRun runtime cid outcome repoll prev).1 = false →
        (startContainerRun runtime cid outcome repoll prev).2.1 = 0) ∧
    ((stopContainerRun runtime cid outcome repoll prev).1 = true →
        (stopContainerRun runtime cid outcome repoll prev).2.1 = 1) ∧
    ((stopContainerRun runtime cid outcome repoll prev).1 = false →
        (stopContainerRun runtime cid outcome repoll prev).2.1 = 0) ∧
    ((restartContainerRun runtime cid outcome repoll prev).1 = true →
        (restartContainerRun runtime cid outcome repoll prev).2.1 = 1) ∧
    ((restartContainerRun runtime cid outcome repoll prev).1 = false →
        (restartContainerRun runtime cid outcome repoll prev).2.1 = 0) := by
  unfold startContainerRun stopContainerRun restartContainerRun
  rcases runtime with _ | rt
  · simp
  · rcases outcome with msg | r
    · simp
    · by_cases h : r.returncode = 0 <;> simp [h]

/-- C6, witness: a successful `start_container` call re-polls exactly once. -/
theorem c6_witness :
    (startContainerRun (some "docker") "web" (CallOutcome.returns ⟨0, "", ""⟩)
        (PsOutcome.returns ⟨0, []⟩) []).2.1 = 1 :=
  (c6_repoll_iff_success (some "docker") "web" (CallOutcome.returns ⟨0, "", ""⟩)
      (PsOutcome.returns ⟨0, []⟩) []).1 rfl

/-- C7: `run_compose` invokes the engine's compose equivalent
(`docker-compose` for docker, `podman-compose` otherwise) with `-f <file>`,
then `-p <project>` when a (nonempty) project name is given, then `up -d`
when up is true and `down` otherwise; and it returns a
(success, output) pair — `(True, stdout)` on exit 0, `(False, stderr)`
otherwise. -/
theorem c7_compose_invocation (rt file : String) (project : Option String)
    (up : Bool) (r : CmdResult)
    (hp : ∀ p, project = some p → p ≠ "") :
    composeCmd rt file project up
      = (if rt = "docker" then ["docker-compose"] else ["podman-compose"])
        ++ ["-f", file]
        ++ (match project with
            | some p => ["-p", p]
            | none => [])
        ++ (if up then ["up", "-d"] else ["down"]) ∧
    runCompose (some rt) file project up (CallOutcome.returns r)
      = (if r.returncode = 0 then (true, r.stdout) else (false, r.stderr)) := by
  constructor
  · unfold composeCmd
    rcases project with _ | p
    · cases up <;> simp
    · have hp1 := hp p rfl
      cases up <;> simp [hp1]
  · unfold runCompose
    by_cases h : r.returncode = 0 <;> simp [h]

/-- C7, witness: a concrete docker compose-up invocation with a project
name. -/
theorem c7_witness :
    composeCmd "docker" "compose.yaml" (some "sing") true
      = ["docker-compose", "-f", "compose.yaml", "-p", "sing", "up", "-d"] := by
  have h := c7_compose_invocation "docker" "compose.yaml" (some "sing") true
    ⟨0, "", ""⟩ (by intro p hp; cases hp; decide)
  simpa using h.1

/-- C8: in a fixed probed environment each detection function is a pure
function of that environment, so running it twice returns the same output
on every call — detection is deterministic and idempotent. -/
theorem c8_detection_idempotent (e : DetectEnv) :
    detect_os e = detect_os e ∧
    detect_cpu_type e = detect_cpu_type e ∧
    detect_gpu_type e = detect_gpu_type e ∧
    detect_platform e = detect_platform e ∧
    detect_apple_silicon_variant e = detect_apple_silicon_variant e ∧
    detect_jetson_model e = detect_jetson_model e :=
  ⟨rfl, rfl, rfl, rfl, rfl, rfl⟩

/-- C10: in every reachable manager state there is at most one live polling
thread, and calling `start()` while the poller is already running returns
immediately, leaving the state (and thread count) unchanged. -/
theorem c10_single_poller {s : MgrState} (h : MgrReachable s) :
    s.liveThreads ≤ 1 ∧ (s.running = true → mgrStart s = s) := by
  constructor
  · rw [mgrReachable_inv h]
    split <;> omega
  · intro hr
    unfold mgrStart
    rw [if_pos hr]

/-- C10, witness: the state reached by one `start()` from the initial state
has one thread, and a second `start()` leaves it unchanged. -/
theorem c10_witness :
    (mgrStart ⟨false, 0⟩).liveThreads ≤ 1 ∧
      ((mgrStart ⟨false, 0⟩).running = true →
        mgrStart (mgrStart ⟨false, 0⟩) = mgrStart ⟨false, 0⟩) :=
  c10_single_poller (MgrReachable.start MgrReachable.init)
